import Mathlib

/-!
Verification development for the event bot repository (src/event_bot.py).

The Python source is shallowly embedded: strings are `List Char`, SQL rows are
a structure, each handler is a pure function from the store and its inputs to
the replies it sends, the conversation state it returns, and the new store.
An uncaught Python exception inside a handler is modelled by `Option.none`
of the handler's result type; handlers that catch their exceptions are total.
-/

namespace EventBot

/-! ## Python string primitives -/

/-- Python `str.split()` with no separator: split on runs of whitespace,
dropping empty tokens.  Accumulator-based worker (`acc` holds the current
token reversed). -/
def pySplitAux : List Char → List Char → List (List Char)
  | [], acc => if acc.isEmpty then [] else [acc.reverse]
  | c :: cs, acc =>
    if c.isWhitespace then
      if acc.isEmpty then pySplitAux cs [] else acc.reverse :: pySplitAux cs []
    else pySplitAux cs (c :: acc)

/-- Python `str.split()` (no argument). -/
def pySplit (s : List Char) : List (List Char) := pySplitAux s []

/-- Worker for `pySplitOn`: Python `str.split(sep)`, which keeps empty pieces. -/
def splitOnAux (sep : Char) : List Char → List Char → List (List Char)
  | [], acc => [acc.reverse]
  | c :: cs, acc =>
    if c == sep then acc.reverse :: splitOnAux sep cs []
    else splitOnAux sep cs (c :: acc)

/-- Python `str.split(sep)` for a single-character separator. -/
def pySplitOn (sep : Char) (s : List Char) : List (List Char) := splitOnAux sep s []

/-- Python slice `s[a:b]` for `0 ≤ a ≤ b` (out-of-range indices are clamped,
never an error). -/
def pySlice (a b : Nat) (s : List Char) : List Char := (s.drop a).take (b - a)

/-- Strip leading and trailing whitespace, as Python `int(...)` does before
reading the number. -/
def pyStrip (s : List Char) : List Char :=
  ((s.dropWhile Char.isWhitespace).reverse.dropWhile Char.isWhitespace).reverse

/-- Decimal value of a digit string (most significant first). -/
def digitsToNat (ds : List Char) : Nat :=
  ds.foldl (fun a c => a * 10 + (c.toNat - 48)) 0

/-- Unsigned part of Python `int(str)`: nonempty, all ASCII digits. -/
def pyIntCore (ds : List Char) : Option Int :=
  if !ds.isEmpty && ds.all Char.isDigit then some (digitsToNat ds : Int) else none

/-- Python `int(str)`: optional surrounding whitespace, optional sign, decimal
digits; anything else raises `ValueError`, modelled as `none`. -/
def pyInt (s : List Char) : Option Int :=
  match pyStrip s with
  | [] => none
  | c :: ds =>
    if c == '-' then (pyIntCore ds).map (fun n => -n)
    else if c == '+' then pyIntCore ds
    else pyIntCore (c :: ds)

/-! ## The date-time codec (`parse_datetime` / `format_datetime`,
src/event_bot.py lines 61-81) -/

/-- A value of Python `datetime.datetime` restricted to the five fields the
bot uses (`datetime(year, month, day, hour, minute)`, seconds zero). -/
structure PyDateTime where
  year : Int
  month : Int
  day : Int
  hour : Int
  minute : Int
deriving DecidableEq, Repr

/-- Gregorian leap-year rule used by Python `datetime`. -/
def isLeapYear (y : Int) : Bool :=
  y % 4 == 0 && (y % 100 != 0 || y % 400 == 0)

/-- Days in a month, as validated by the `datetime` constructor. -/
def daysInMonth (y m : Int) : Int :=
  if m == 2 then (if isLeapYear y then 29 else 28)
  else if m == 4 || m == 6 || m == 9 || m == 11 then 30
  else 31

/-- The argument ranges accepted by `datetime(year, month, day, hour, minute)`. -/
def PyDateTime.valid (dt : PyDateTime) : Bool :=
  decide (1 ≤ dt.year) && decide (dt.year ≤ 9999) &&
  decide (1 ≤ dt.month) && decide (dt.month ≤ 12) &&
  decide (1 ≤ dt.day) && decide (dt.day ≤ daysInMonth dt.year dt.month) &&
  decide (0 ≤ dt.hour) && decide (dt.hour < 24) &&
  decide (0 ≤ dt.minute) && decide (dt.minute < 60)

/-- The `datetime(...)` constructor: returns the value, or raises `ValueError`
(modelled as `none`) on out-of-range arguments. -/
def mkPyDateTime (y mo d h mi : Int) : Option PyDateTime :=
  let dt : PyDateTime := ⟨y, mo, d, h, mi⟩
  if dt.valid then some dt else none

/-- Embedding of `parse_datetime` (src/event_bot.py lines 61-71): split the input on
whitespace into two tokens, read day/month/year from fixed slices of the date
token and hour/minute from the time token, year `2000 + YY`; every exception
(`ValueError`/`IndexError`) is caught and yields `None`. -/
def parse_datetime (s : List Char) : Option PyDateTime :=
  match pySplit s with
  | [date_part, time_part] =>
    (pyInt (pySlice 0 2 date_part)).bind fun day =>
    (pyInt (pySlice 2 4 date_part)).bind fun month =>
    (pyInt (pySlice 4 6 date_part)).bind fun yy =>
    (pyInt (pySlice 0 2 time_part)).bind fun hour =>
    (pyInt (pySlice 2 4 time_part)).bind fun minute =>
    mkPyDateTime (2000 + yy) month day hour minute
  | _ => none

/-- Two-digit zero-padded decimal rendering (strftime `%d`, `%m`, `%y`, `%H`,
`%M` on in-range values). -/
def pad2 (n : Nat) : List Char :=
  [Char.ofNat (48 + n / 10 % 10), Char.ofNat (48 + n % 10)]

/-- Embedding of `format_datetime` (src/event_bot.py lines 73-74):
`dt.strftime("%d%m%y %H%M")`. -/
def format_datetime (dt : PyDateTime) : List Char :=
  pad2 dt.day.toNat ++ pad2 dt.month.toNat ++ pad2 (dt.year.toNat % 100) ++
  ' ' :: (pad2 dt.hour.toNat ++ pad2 dt.minute.toNat)

/-- strftime `%y` / strptime pivot: two-digit years 69-99 are 19xx,
00-68 are 20xx. -/
def yearOfYY (yy : Int) : Int := if yy ≥ 69 then 1900 + yy else 2000 + yy

/-- Embedding of `format_display_datetime` (src/event_bot.py lines 76-81):
`strptime(dt_str, "%d%m%y %H%M")` then `strftime("%d.%m.%Y %H:%M")`; on a
parse failure the raw stored text is returned unchanged.  Modelled for the
fixed-width canonical storage encoding (eleven characters, zero padded),
where `strptime` reads exactly two digits per field. -/
def format_display_datetime (s : List Char) : List Char :=
  match s with
  | [d1, d2, m1, m2, y1, y2, ' ', h1, h2, n1, n2] =>
    if [d1, d2, m1, m2, y1, y2, h1, h2, n1, n2].all Char.isDigit then
      match mkPyDateTime (yearOfYY (digitsToNat [y1, y2])) (digitsToNat [m1, m2])
          (digitsToNat [d1, d2]) (digitsToNat [h1, h2]) (digitsToNat [n1, n2]) with
      | some dt =>
        [d1, d2, '.', m1, m2, '.'] ++ (toString dt.year).toList ++
        [' ', h1, h2, ':', n1, n2]
      | none => s
    else s
  | _ => s

/-- Strict chronological comparison of two `datetime` values
(Python `dt1 < dt2`, field-lexicographic; the sub-minute part of the
right-hand side is zero in every comparison the claims exercise). -/
def dtLt (a b : PyDateTime) : Bool :=
  decide (a.year < b.year) ||
  (a.year == b.year && (decide (a.month < b.month) ||
  (a.month == b.month && (decide (a.day < b.day) ||
  (a.day == b.day && (decide (a.hour < b.hour) ||
  (a.hour == b.hour && decide (a.minute < b.minute))))))))

/-! ## The event store (sqlite table `events`, src/event_bot.py lines 46-59) -/

/-- One row of the `events` table.  `file_id`/`file_type`/`file_name` are
nullable (`Option`). -/
structure EventRecord where
  id : Int
  user_id : Int
  datetime : List Char
  event_text : List Char
  file_id : Option (List Char)
  file_type : Option (List Char)
  file_name : Option (List Char)
deriving DecidableEq, Repr

/-- sqlite `ORDER BY` comparison on a TEXT column (BINARY collation:
bytewise on the UTF-8 encoding, which agrees with codepoint order). -/
def strLe : List Char → List Char → Bool
  | [], _ => true
  | _ :: _, [] => false
  | a :: as, b :: bs =>
    if a.toNat < b.toNat then true
    else if b.toNat < a.toNat then false
    else strLe as bs

/-- Insert a row into a list already sorted by `strLe` on `datetime`. -/
def insertByDatetime (r : EventRecord) : List EventRecord → List EventRecord
  | [] => [r]
  | x :: xs =>
    if strLe r.datetime x.datetime then r :: x :: xs
    else x :: insertByDatetime r xs

/-- Rows ordered as sqlite `ORDER BY datetime` orders them: ascending in the
raw TEXT value. -/
def sortByDatetime : List EventRecord → List EventRecord
  | [] => []
  | r :: rs => insertByDatetime r (sortByDatetime rs)

/-- Embedding of the `list_events` query (src/event_bot.py lines 221-228):
`SELECT ... FROM events WHERE user_id = ? ORDER BY datetime`.  The rows are
kept whole here; the Python projection to five columns does not affect
their order. -/
def list_events (db : List EventRecord) (uid : Int) : List EventRecord :=
  sortByDatetime (db.filter (fun r => r.user_id == uid))

/-- The `AUTOINCREMENT` id for a freshly inserted row. -/
def nextId (db : List EventRecord) : Int :=
  (db.foldl (fun m r => max m r.id) 0) + 1

/-! ## Conversation states (src/event_bot.py lines 32-43) and
`ConversationHandler.END` -/

def GET_DATETIME : Int := 0
def GET_TEXT : Int := 1
def GET_FILE : Int := 2
def GET_EVENT_ID : Int := 3
def GET_EDIT_ID : Int := 4
def EDIT_CHOICE : Int := 5
def EDIT_DATETIME : Int := 6
def EDIT_TEXT : Int := 7
def EDIT_FILE : Int := 8
def CONFIRM_DELETE : Int := 9

/-- Value of `ConversationHandler.END`. -/
def ENDCONV : Int := -1

/-- The states registered in `conv_handler_delete`
(src/event_bot.py lines 601-608). -/
def conv_handler_delete_states : List Int := [GET_EDIT_ID, CONFIRM_DELETE]

/-! ## Inbound Telegram messages (the attachment part the handlers read) -/

structure TgDocument where
  file_id : List Char
  file_name : Option (List Char)
deriving DecidableEq, Repr

structure TgPhotoSize where
  file_id : List Char
deriving DecidableEq, Repr

structure TgAudio where
  file_id : List Char
  file_name : Option (List Char)
deriving DecidableEq, Repr

structure TgVoice where
  file_id : List Char
deriving DecidableEq, Repr

/-- The fields of `update.message` the attachment handlers inspect.
`photo` is a list of sizes (Python falsiness of the empty list selects the
no-photo branch); `photo[-1]` is the largest size. -/
structure TgMessage where
  document : Option TgDocument
  photo : List TgPhotoSize
  audio : Option TgAudio
  voice : Option TgVoice
deriving DecidableEq, Repr

/-- The `if/elif` extraction chain shared by `get_file_attachment`
(src/event_bot.py lines 171-188) and `edit_file` (lines 423-438): produces
`(file_id, file_type, file_name)`. -/
def extract_attachment (m : TgMessage) :
    Option (List Char) × Option (List Char) × Option (List Char) :=
  match m.document with
  | some d => (some d.file_id, some ("document".toList), d.file_name)
  | none =>
    match m.photo.getLast? with
    | some p => (some p.file_id, some ("photo".toList), none)
    | none =>
      match m.audio with
      | some a => (some a.file_id, some ("audio".toList), a.file_name)
      | none =>
        match m.voice with
        | some v => (some v.file_id, some ("voice".toList), none)
        | none => (none, none, none)

/-- Python truthiness of an optional string (`None` and `""` are falsy). -/
def truthyStr : Option (List Char) → Bool
  | none => false
  | some s => !s.isEmpty

/-! ## Add flow handlers -/

/-- Embedding of `save_event` (src/event_bot.py lines 203-219): INSERT the draft plus the
attachment triple, reply with a success message. -/
def save_event (db : List EventRecord) (uid : Int) (idate idescr : List Char)
    (fid ftype fname : Option (List Char)) : String × List EventRecord :=
  (if truthyStr fid then "✅ Событие сохранено! С файлом!" else "✅ Событие сохранено!",
   db ++ [⟨nextId db, uid, idate, idescr, fid, ftype, fname⟩])

/-- Embedding of `get_file_attachment` (src/event_bot.py lines 171-197): accept one of the
four attachment kinds and save; anything else re-prompts in `GET_FILE`.
`idate`/`idescr` are the draft fields from `context.user_data`.  Result:
(reply, returned conversation state, new store). -/
def get_file_attachment (db : List EventRecord) (uid : Int)
    (idate idescr : List Char) (m : TgMessage) :
    String × Int × List EventRecord :=
  let ext := extract_attachment m
  if truthyStr ext.1 then
    let sv := save_event db uid idate idescr ext.1 ext.2.1 ext.2.2
    (sv.1, ENDCONV, sv.2)
  else
    ("❌ Поддерживаются только документы, фото, аудио и голосовые сообщения",
     GET_FILE, db)

/-- Embedding of `skip_file` (src/event_bot.py lines 199-201): save the draft with no
attachment. -/
def skip_file (db : List EventRecord) (uid : Int) (idate idescr : List Char) :
    String × Int × List EventRecord :=
  let sv := save_event db uid idate idescr none none none
  (sv.1, ENDCONV, sv.2)

/-! ## Fetch-File flow -/

/-- The outbound channel operation emitted by `get_event_id`: either nothing,
or one `reply_document` / `reply_photo` / `reply_audio` / `reply_voice` call
(tagged with the `file_type` string that selected it). -/
inductive FileAction where
  | noSend
  | send (kind : List Char) (file : Option (List Char)) (caption : List Char)
deriving DecidableEq, Repr

/-- Default caption `f"Файл из события {event_id}"`. -/
def defaultCaption (eid : Int) : List Char :=
  "Файл из события ".toList ++ (toString eid).toList

/-- Caption choice `caption = f"Файл из события {event_id}" if not file_name else file_name`. -/
def fetch_caption (eid : Int) (fname : Option (List Char)) : List Char :=
  match fname with
  | some n => if n.isEmpty then defaultCaption eid else n
  | none => defaultCaption eid

/-- The `if file_type == ... / elif ...` dispatch of `get_event_id`
(src/event_bot.py lines 288-295); a `file_type` matching no branch sends
nothing. -/
def fileSendAction (fid : Option (List Char)) (ftype : Option (List Char))
    (caption : List Char) : FileAction :=
  match ftype with
  | some t =>
    if t = "document".toList then FileAction.send t fid caption
    else if t = "photo".toList then FileAction.send t fid caption
    else if t = "audio".toList then FileAction.send t fid caption
    else if t = "voice".toList then FileAction.send t fid caption
    else FileAction.noSend
  | none => FileAction.noSend

/-- Observable outcome of one `get_event_id` step: messages sent, the file
send operation (if any), the returned conversation state. -/
structure FetchResult where
  replies : List String
  action : FileAction
  next : Int
deriving DecidableEq, Repr

/-- Embedding of `get_event_id` (src/event_bot.py lines 269-304).  `int(text)` failure
re-prompts; the owner-scoped `SELECT` returning no row reports not-found and
ends; a row is then dispatched on its `file_type` (note: the row itself is
truthy even when all three file columns are NULL, so the not-found message is
not sent in that case and no reply branch fires). -/
def get_event_id (db : List EventRecord) (uid : Int) (text : List Char) :
    FetchResult :=
  match pyInt text with
  | none => ⟨["❌ Введите числовой ID события"], FileAction.noSend, GET_EVENT_ID⟩
  | some eid =>
    match db.find? (fun r => r.id == eid && r.user_id == uid) with
    | none => ⟨["❌ Файл не найден"], FileAction.noSend, ENDCONV⟩
    | some r =>
      ⟨[], fileSendAction r.file_id r.file_type (fetch_caption eid r.file_name),
       ENDCONV⟩

/-! ## Edit / Delete id-selection state -/

/-- Observable outcome of one `get_edit_id` step: messages, inline-keyboard
callback data presented, the `user_data["edit_id"]` assignment, the returned
conversation state. -/
structure EditIdResult where
  replies : List String
  buttons : List (List Char)
  editIdSet : Option Int
  next : Int
deriving DecidableEq, Repr

/-- Embedding of `get_edit_id` (src/event_bot.py lines 334-364), the id-selection handler
shared by the Edit and Delete conversations: a non-integer re-prompts in
`GET_EDIT_ID`; an id with no owner-scoped row reports not-found and ends; a
found row presents the edit-choice keyboard and returns `EDIT_CHOICE`. -/
def get_edit_id (db : List EventRecord) (uid : Int) (text : List Char) :
    EditIdResult :=
  match pyInt text with
  | none => ⟨["❌ Введите числовой ID события"], [], none, GET_EDIT_ID⟩
  | some eid =>
    match db.find? (fun r => r.id == eid && r.user_id == uid) with
    | none => ⟨["❌ Событие не найдено"], [], some eid, ENDCONV⟩
    | some _ =>
      ⟨["Что вы хотите изменить?"],
       ["edit_datetime".toList, "edit_text".toList, "edit_file".toList],
       some eid, EDIT_CHOICE⟩

/-! ## Edit flow mutations -/

/-- Row effect of `UPDATE events SET datetime = ? WHERE id = ?`. -/
def updateDatetimeRow (eid : Int) (newdt : List Char) (r : EventRecord) :
    EventRecord :=
  if r.id == eid then { r with datetime := newdt } else r

/-- Row effect of `UPDATE events SET event_text = ? WHERE id = ?`. -/
def updateTextRow (eid : Int) (new_text : List Char) (r : EventRecord) :
    EventRecord :=
  if r.id == eid then { r with event_text := new_text } else r

/-- Row effect of `UPDATE events SET file_id = ?, file_type = ?,
file_name = ? WHERE id = ?` — one statement setting all three columns. -/
def updateFileRow (eid : Int) (fid ftype fname : Option (List Char))
    (r : EventRecord) : EventRecord :=
  if r.id == eid then
    { r with file_id := fid, file_type := ftype, file_name := fname }
  else r

/-- Embedding of `edit_datetime` (src/event_bot.py lines 385-406): re-validate the format
and the future-date rule, then `UPDATE events SET datetime = ? WHERE id = ?`
(no ownership clause, no existence check) and report success. -/
def edit_datetime (now : PyDateTime) (db : List EventRecord) (eid : Int)
    (text : List Char) : String × Int × List EventRecord :=
  match parse_datetime text with
  | none =>
    ("❌ Неверный формат! Используйте ДДММГГ ЧЧММ (например, 150624 1430)",
     EDIT_DATETIME, db)
  | some dt =>
    if dtLt dt now then ("❌ Дата должна быть в будущем!", EDIT_DATETIME, db)
    else
      ("✅ Дата события обновлена!", ENDCONV,
       db.map (updateDatetimeRow eid (format_datetime dt)))

/-- Embedding of `edit_text` (src/event_bot.py lines 408-419):
`UPDATE events SET event_text = ? WHERE id = ?`, then an unconditional
success reply. -/
def edit_text (db : List EventRecord) (eid : Int) (new_text : List Char) :
    String × Int × List EventRecord :=
  ("✅ Текст события обновлен!", ENDCONV, db.map (updateTextRow eid new_text))

/-- Embedding of `edit_file` (src/event_bot.py lines 421-453): extract the attachment; if
one was supplied, `UPDATE events SET file_id = ?, file_type = ?, file_name = ?
WHERE id = ?` in a single statement and report success; otherwise re-prompt
in `EDIT_FILE`. -/
def edit_file (db : List EventRecord) (eid : Int) (m : TgMessage) :
    String × Int × List EventRecord :=
  let ext := extract_attachment m
  if truthyStr ext.1 then
    ("✅ Файл события обновлен!", ENDCONV,
     db.map (updateFileRow eid ext.1 ext.2.1 ext.2.2))
  else
    ("❌ Поддерживаются только документы, фото, аудио и голосовые сообщения",
     EDIT_FILE, db)

/-- Embedding of `remove_file` (src/event_bot.py lines 455-465): NULL out all three
attachment columns of the target row. -/
def remove_file (db : List EventRecord) (eid : Int) :
    String × Int × List EventRecord :=
  ("✅ Файл удален из события!", ENDCONV,
   db.map (updateFileRow eid none none none))

/-! ## Delete flow -/

/-- Embedding of `confirm_delete` (src/event_bot.py lines 489-508): look the target row up
with no owner clause and present the confirm/cancel keyboard.  `fetchone()`
returning no row makes the tuple unpacking raise `TypeError` (modelled as
`none`).  This function is registered in no conversation state. -/
def confirm_delete (db : List EventRecord) (eid : Int) :
    Option (List Char × List (List Char) × Int) :=
  match db.find? (fun r => r.id == eid) with
  | none => none
  | some r =>
    some ("Вы уверены, что хотите удалить это событие?\n\n🆔 ".toList ++
          (toString eid).toList ++ "\n⏰ ".toList ++
          format_display_datetime r.datetime ++ ": ".toList ++ r.event_text,
          ["confirm_del_".toList ++ (toString eid).toList, "cancel_del".toList],
          ENDCONV)

/-- Embedding of `handle_confirm_delete` (src/event_bot.py lines 510-534): on
`confirm_del_<id>` callback data, `SELECT` the row (no owner clause), unpack
it — `fetchone()` returning no row raises `TypeError`, modelled as `none` —
then `DELETE` it and edit the message to report the removed row's
date/description; on any other data report cancellation and leave the store
untouched. -/
def handle_confirm_delete (db : List EventRecord) (data : List Char) :
    Option (List Char × List EventRecord) :=
  if ("confirm_del_".toList).isPrefixOf data then
    match (pySplitOn '_' data).get? 2 with
    | none => none
    | some tok =>
      match pyInt tok with
      | none => none
      | some eid =>
        match db.find? (fun r => r.id == eid) with
        | none => none
        | some r =>
          some ("🗑️ Событие удалено:\n⏰ ".toList ++
                format_display_datetime r.datetime ++ ": ".toList ++ r.event_text,
                db.filter (fun r2 => !(r2.id == eid)))
  else
    some ("❌ Удаление отменено".toList, db)

/-! ## The attachment invariant (spec section 3) -/

/-- The four attachment kinds. -/
def validKind (t : List Char) : Bool :=
  t == "document".toList || t == "photo".toList ||
  t == "audio".toList || t == "voice".toList

/-- Spec invariant on the attachment triple: all three fields absent, or a
non-empty handle with a valid kind, the display name absent for kind photo
or voice. -/
def attachInvariant (fid ftype fname : Option (List Char)) : Bool :=
  match fid, ftype with
  | none, none => fname == none
  | some f, some t =>
    !f.isEmpty && validKind t &&
    (!(t == "photo".toList || t == "voice".toList) || fname == none)
  | _, _ => false

/-- The invariant applied to one stored row. -/
def recordInv (r : EventRecord) : Bool :=
  attachInvariant r.file_id r.file_type r.file_name

/-- The invariant over the whole store. -/
def storeInv (db : List EventRecord) : Bool := db.all recordInv

/-! ## Fixtures for the claims -/

/-- Owner 7, event on 31.12.2024 noon: raw text `"311224 1200"`. -/
def evDec : EventRecord :=
  ⟨1, 7, "311224 1200".toList, "канун".toList, none, none, none⟩

/-- Owner 7, event on 01.01.2025 noon: raw text `"010125 1200"`. -/
def evJan : EventRecord :=
  ⟨2, 7, "010125 1200".toList, "новый год".toList, none, none, none⟩

/-- One owned event with no attachment (owner 5, id 1). -/
def dbDel : List EventRecord :=
  [⟨1, 5, "150630 1430".toList, "встреча".toList, none, none, none⟩]

/-- One event owned by user 99 (id 1), used for the cross-owner lookups. -/
def dbForeign : List EventRecord :=
  [⟨1, 99, "150630 1430".toList, "x".toList, none, none, none⟩]

/-- One event owned by user 7 (id 1) with no attachment. -/
def dbNoAttach : List EventRecord :=
  [⟨1, 7, "150630 1430".toList, "x".toList, none, none, none⟩]

/-- A store without any row of id 42. -/
def dbNo42 : List EventRecord :=
  [⟨1, 7, "150630 1430".toList, "x".toList, none, none, none⟩]

/-- An inbound message carrying a document attachment. -/
def msgDoc : TgMessage :=
  ⟨some ⟨"fileA".toList, some ("a.pdf".toList)⟩, [], none, none⟩

/-! ## Theorems -/

/-- Claim C1.  The claim says `listByOwner` (the `/list` query) returns an owner's
events in strictly increasing chronological order of the decoded date-time,
even across a year boundary where lexicographic order of the raw `DDMMYY
HHMM` text disagrees with chronological order.  The code orders by the raw
TEXT column (`ORDER BY datetime`): for owner 7 with events `"311224 1200"`
(31 Dec 2024) and `"010125 1200"` (1 Jan 2025), both insertion orders return
the January event first although it decodes to the chronologically later
date-time — the output is not in chronological order. -/
theorem C1_list_order_is_raw_text_not_chronological :
    list_events [evDec, evJan] 7 = [evJan, evDec]
    ∧ list_events [evJan, evDec] 7 = [evJan, evDec]
    ∧ parse_datetime evDec.datetime = some ⟨2024, 12, 31, 12, 0⟩
    ∧ parse_datetime evJan.datetime = some ⟨2025, 1, 1, 12, 0⟩
    ∧ dtLt ⟨2024, 12, 31, 12, 0⟩ ⟨2025, 1, 1, 12, 0⟩ = true := by
  decide

/-- Claim C2.  The claim says the Delete flow realizes
AwaitingEditId → ConfirmDelete via the registered transitions, presenting a
confirm/cancel choice on a valid owned id.  In the code, the Delete
conversation's `GET_EDIT_ID` handler is `get_edit_id`, which on a valid owned
id presents the *edit-choice* keyboard and returns `EDIT_CHOICE` — a state
`conv_handler_delete` does not register — and no run of `get_edit_id` ever
returns `CONFIRM_DELETE`, so the confirm/cancel step is unreachable in the
Delete conversation. -/
theorem C2_confirm_delete_state_unreachable :
    get_edit_id dbDel 5 ("1".toList)
      = ⟨["Что вы хотите изменить?"],
         ["edit_datetime".toList, "edit_text".toList, "edit_file".toList],
         some 1, EDIT_CHOICE⟩
    ∧ EDIT_CHOICE ∉ conv_handler_delete_states
    ∧ ∀ db uid s, (get_edit_id db uid s).next ≠ CONFIRM_DELETE := by
  refine ⟨by decide, by decide, ?_⟩
  intro db uid s
  rcases h : pyInt s with _ | eid
  · simp [get_edit_id, h, GET_EDIT_ID, CONFIRM_DELETE]
  · rcases h2 : db.find? (fun r => r.id == eid && r.user_id == uid) with _ | r <;>
      simp [get_edit_id, h, h2, EDIT_CHOICE, ENDCONV, CONFIRM_DELETE]

/-- Counterexample for claim C3.  The claim says `parse` returns invalid for every
input whose date token does not have exactly length 6 and for every input
containing a non-numeric character.  The input `"150624x 1430"` has a
7-character date token containing the non-numeric `'x'`, yet parses
successfully (the slices `[:2]`, `[2:4]`, `[4:6]` never reach position 6). -/
theorem C3_extra_characters_accepted :
    parse_datetime ("150624x 1430".toList) = some ⟨2024, 6, 15, 14, 30⟩
    ∧ ("150624x".toList).length ≠ 6
    ∧ 'x'.isDigit = false := by
  decide

/-- Claim C4.  The claim says mutating a non-existent id is rejected with an error
rather than completing as a silent success.  All four mutation handlers run
an unconditional `UPDATE ... WHERE id = ?` and then report success: on a
store with no row of id 42 each replies with its success message while the
store is returned unchanged. -/
theorem C4_missing_id_mutation_reports_success :
    (∀ r ∈ dbNo42, r.id ≠ 42)
    ∧ edit_text dbNo42 42 ("y".toList)
        = ("✅ Текст события обновлен!", ENDCONV, dbNo42)
    ∧ edit_datetime ⟨2025, 1, 1, 0, 0⟩ dbNo42 42 ("150630 1430".toList)
        = ("✅ Дата события обновлена!", ENDCONV, dbNo42)
    ∧ edit_file dbNo42 42 msgDoc
        = ("✅ Файл события обновлен!", ENDCONV, dbNo42)
    ∧ remove_file dbNo42 42
        = ("✅ Файл удален из события!", ENDCONV, dbNo42) := by
  decide

/-- Claim C5.  The claim says the first delete of an id returns the pre-delete
snapshot and removes the record, and a second delete of the same id reports
not-found rather than crashing.  The first confirm on `dbDel` does report
the removed row's date and description and empties the store, but the second
confirm finds no row and the handler's tuple unpacking of `fetchone()`
raises `TypeError` (modelled `none`) instead of reporting not-found. -/
theorem C5_second_delete_crashes :
    handle_confirm_delete dbDel ("confirm_del_1".toList)
      = some ("🗑️ Событие удалено:\n⏰ 15.06.2030 14:30: встреча".toList, [])
    ∧ handle_confirm_delete [] ("confirm_del_1".toList) = none := by
  decide

/-- Counterexample for claim C7.  The claim says fetch-file on an owned event with no
attachment produces the same error report and termination as an unknown id.
Both terminate the conversation, but the no-attachment case sends no message
at all, while the unknown id is answered with `"❌ Файл не найден"`. -/
theorem C7_no_attachment_differs_from_not_found :
    get_event_id dbNoAttach 7 ("1".toList) = ⟨[], FileAction.noSend, ENDCONV⟩
    ∧ get_event_id [] 7 ("1".toList)
        = ⟨["❌ Файл не найден"], FileAction.noSend, ENDCONV⟩
    ∧ get_event_id dbNoAttach 7 ("1".toList) ≠ get_event_id [] 7 ("1".toList) := by
  decide

/-- Claim C6.  For every user A, a lookup of an id whose every row belongs to other
owners produces exactly the outcome of an id that exists for no one — the
not-found reply, no file action, conversation end — in both the Fetch-File
(`get_event_id`) and Edit/Delete (`get_edit_id`) id lookups: foreign
ownership is indistinguishable from non-existence. -/
theorem C6_foreign_owner_indistinguishable (db1 db2 : List EventRecord)
    (A eid : Int) (s : List Char)
    (hs : pyInt s = some eid)
    (h1 : ∀ r ∈ db1, r.id = eid → r.user_id ≠ A)
    (h2 : ∀ r ∈ db2, r.id ≠ eid) :
    get_event_id db1 A s = get_event_id db2 A s
    ∧ get_edit_id db1 A s = get_edit_id db2 A s
    ∧ get_event_id db1 A s = ⟨["❌ Файл не найден"], FileAction.noSend, ENDCONV⟩
    ∧ get_edit_id db1 A s = ⟨["❌ Событие не найдено"], [], some eid, ENDCONV⟩ := by
  have hf1 : db1.find? (fun r => r.id == eid && r.user_id == A) = none := by
    rw [List.find?_eq_none]
    intro r hr
    simp only [Bool.and_eq_true, beq_iff_eq, not_and]
    exact fun hid => h1 r hr hid
  have hf2 : db2.find? (fun r => r.id == eid && r.user_id == A) = none := by
    rw [List.find?_eq_none]
    intro r hr
    simp only [Bool.and_eq_true, beq_iff_eq, not_and]
    exact fun hid => absurd hid (h2 r hr)
  refine ⟨?_, ?_, ?_, ?_⟩ <;> simp [get_event_id, get_edit_id, hs, hf1, hf2]

/-- Witness for C6 at a concrete input: id 1 owned by user 99, queried as
user 7, behaves exactly like the empty store. -/
theorem C6_foreign_owner_indistinguishable_witness :
    get_event_id dbForeign 7 ("1".toList) = get_event_id [] 7 ("1".toList)
    ∧ get_edit_id dbForeign 7 ("1".toList) = get_edit_id [] 7 ("1".toList)
    ∧ get_event_id dbForeign 7 ("1".toList)
        = ⟨["❌ Файл не найден"], FileAction.noSend, ENDCONV⟩
    ∧ get_edit_id dbForeign 7 ("1".toList)
        = ⟨["❌ Событие не найдено"], [], some 1, ENDCONV⟩ :=
  C6_foreign_owner_indistinguishable dbForeign [] 7 1 ("1".toList)
    (by decide) (by decide) (by decide)

/-- Claim C7 amended.  A fetch-file lookup of an owned event whose attachment
columns are NULL terminates the conversation like the not-found case, but —
unlike not-found, which replies `"❌ Файл не найден"` — it sends no file and
no message at all. -/
theorem C7_found_without_attachment_silent (db : List EventRecord)
    (uid eid : Int) (s : List Char) (r : EventRecord)
    (hs : pyInt s = some eid)
    (hfind : db.find? (fun r2 => r2.id == eid && r2.user_id == uid) = some r)
    (hft : r.file_type = none) :
    get_event_id db uid s = ⟨[], FileAction.noSend, ENDCONV⟩
    ∧ get_event_id db uid s
        ≠ ⟨["❌ Файл не найден"], FileAction.noSend, ENDCONV⟩ := by
  have hmain : get_event_id db uid s = ⟨[], FileAction.noSend, ENDCONV⟩ := by
    simp [get_event_id, hs, hfind, fileSendAction, hft]
  refine ⟨hmain, ?_⟩
  rw [hmain]
  intro hcontra
  exact absurd (congrArg FetchResult.replies hcontra) (by simp)

/-- Witness for C7 amended at a concrete input. -/
theorem C7_found_without_attachment_silent_witness :
    get_event_id dbNoAttach 7 ("1".toList) = ⟨[], FileAction.noSend, ENDCONV⟩
    ∧ get_event_id dbNoAttach 7 ("1".toList)
        ≠ ⟨["❌ Файл не найден"], FileAction.noSend, ENDCONV⟩ :=
  C7_found_without_attachment_silent dbNoAttach 7 1 ("1".toList)
    ⟨1, 7, "150630 1430".toList, "x".toList, none, none, none⟩
    (by decide) (by decide) rfl

/-- An `UPDATE`-style map leaves position `i` holding the updated row. -/
theorem map_row_get (db : List EventRecord) (f : EventRecord → EventRecord)
    (i : Nat) (hi : i < db.length) : (db.map f)[i]? = some (f db[i]) := by
  simp [List.getElem?_map, List.getElem?_eq_getElem hi]

/-- Claim C8.  Editing only the description (`edit_text`) leaves `when`, all three
attachment fields, id and owner of every row unchanged, and leaves non-target
rows entirely unchanged; editing only the attachment (`edit_file`, when an
attachment was supplied) leaves `when` and `description` unchanged, replaces
handle, kind and display name of the target together from one extraction,
and leaves non-target rows entirely unchanged. -/
theorem C8_edit_frame (db : List EventRecord) (eid : Int) (txt : List Char)
    (m : TgMessage) (i : Nat) (hi : i < db.length) :
    ∃ rT rF : EventRecord,
      ((edit_text db eid txt).2.2)[i]? = some rT
      ∧ ((edit_file db eid m).2.2)[i]? = some rF
      ∧ rT.id = db[i].id
      ∧ rT.user_id = db[i].user_id
      ∧ rT.datetime = db[i].datetime
      ∧ rT.file_id = db[i].file_id
      ∧ rT.file_type = db[i].file_type
      ∧ rT.file_name = db[i].file_name
      ∧ (db[i].id ≠ eid → rT = db[i])
      ∧ rF.id = db[i].id
      ∧ rF.user_id = db[i].user_id
      ∧ rF.datetime = db[i].datetime
      ∧ rF.event_text = db[i].event_text
      ∧ (truthyStr (extract_attachment m).1 = true → db[i].id = eid →
           rF.file_id = (extract_attachment m).1
           ∧ rF.file_type = (extract_attachment m).2.1
           ∧ rF.file_name = (extract_attachment m).2.2)
      ∧ (db[i].id ≠ eid → rF = db[i]) := by
  by_cases ht : truthyStr (extract_attachment m).1 = true
  · refine ⟨updateTextRow eid txt db[i],
      updateFileRow eid (extract_attachment m).1 (extract_attachment m).2.1
        (extract_attachment m).2.2 db[i], ?_, ?_, ?_⟩
    · exact map_row_get db _ i hi
    · simp only [edit_file, ht, if_true]
      exact map_row_get db _ i hi
    · by_cases hid : db[i].id = eid <;>
        simp [updateTextRow, updateFileRow, hid, ht]
  · refine ⟨updateTextRow eid txt db[i], db[i], ?_, ?_, ?_⟩
    · exact map_row_get db _ i hi
    · simp only [edit_file, ht, if_false]
      simp [List.getElem?_eq_getElem hi]
    · by_cases hid : db[i].id = eid <;>
        simp [updateTextRow, hid, ht]

/-- Witness for C8 at a concrete store, target id and attachment message. -/
theorem C8_edit_frame_witness :
    ∃ rT rF : EventRecord,
      ((edit_text dbNoAttach 1 ("y".toList)).2.2)[0]? = some rT
      ∧ ((edit_file dbNoAttach 1 msgDoc).2.2)[0]? = some rF
      ∧ rT.id = (dbNoAttach.get ⟨0, by decide⟩).id
      ∧ rT.user_id = (dbNoAttach.get ⟨0, by decide⟩).user_id
      ∧ rT.datetime = (dbNoAttach.get ⟨0, by decide⟩).datetime
      ∧ rT.file_id = (dbNoAttach.get ⟨0, by decide⟩).file_id
      ∧ rT.file_type = (dbNoAttach.get ⟨0, by decide⟩).file_type
      ∧ rT.file_name = (dbNoAttach.get ⟨0, by decide⟩).file_name
      ∧ ((dbNoAttach.get ⟨0, by decide⟩).id ≠ 1 → rT = dbNoAttach.get ⟨0, by decide⟩)
      ∧ rF.id = (dbNoAttach.get ⟨0, by decide⟩).id
      ∧ rF.user_id = (dbNoAttach.get ⟨0, by decide⟩).user_id
      ∧ rF.datetime = (dbNoAttach.get ⟨0, by decide⟩).datetime
      ∧ rF.event_text = (dbNoAttach.get ⟨0, by decide⟩).event_text
      ∧ (truthyStr (extract_attachment msgDoc).1 = true →
           (dbNoAttach.get ⟨0, by decide⟩).id = 1 →
           rF.file_id = (extract_attachment msgDoc).1
           ∧ rF.file_type = (extract_attachment msgDoc).2.1
           ∧ rF.file_name = (extract_attachment msgDoc).2.2)
      ∧ ((dbNoAttach.get ⟨0, by decide⟩).id ≠ 1 → rF = dbNoAttach.get ⟨0, by decide⟩) :=
  C8_edit_frame dbNoAttach 1 ("y".toList) msgDoc 0 (by decide)

/-- An attachment triple the extraction chain accepts satisfies the
invariant. -/
theorem extract_attachment_inv (m : TgMessage)
    (ht : truthyStr (extract_attachment m).1 = true) :
    attachInvariant (extract_attachment m).1 (extract_attachment m).2.1
      (extract_attachment m).2.2 = true := by
  have hext : extract_attachment m = (none, none, none)
      ∨ (∃ f n, extract_attachment m = (some f, some ("document".toList), n))
      ∨ (∃ f, extract_attachment m = (some f, some ("photo".toList), none))
      ∨ (∃ f n, extract_attachment m = (some f, some ("audio".toList), n))
      ∨ (∃ f, extract_attachment m = (some f, some ("voice".toList), none)) := by
    unfold extract_attachment
    rcases m.document with _ | d
    · rcases m.photo.getLast? with _ | p
      · rcases m.audio with _ | a
        · rcases m.voice with _ | v
          · exact Or.inl rfl
          · exact Or.inr (Or.inr (Or.inr (Or.inr ⟨v.file_id, rfl⟩)))
        · exact Or.inr (Or.inr (Or.inr (Or.inl ⟨a.file_id, a.file_name, rfl⟩)))
      · exact Or.inr (Or.inr (Or.inl ⟨p.file_id, rfl⟩))
    · exact Or.inr (Or.inl ⟨d.file_id, d.file_name, rfl⟩)
  rcases hext with h | ⟨f, n, h⟩ | ⟨f, h⟩ | ⟨f, n, h⟩ | ⟨f, h⟩ <;> rw [h] at ht ⊢
  · simp [truthyStr] at ht
  · simp only [truthyStr] at ht
    simp [attachInvariant, ht]
    decide
  · simp only [truthyStr] at ht
    simp [attachInvariant, ht]
    decide
  · simp only [truthyStr] at ht
    simp [attachInvariant, ht]
    decide
  · simp only [truthyStr] at ht
    simp [attachInvariant, ht]
    decide

/-- Mapping a row updater that preserves the invariant preserves the
store-wide invariant. -/
theorem storeInv_map (db : List EventRecord) (f : EventRecord → EventRecord)
    (hdb : storeInv db = true)
    (hf : ∀ r, recordInv r = true → recordInv (f r) = true) :
    storeInv (db.map f) = true := by
  rw [storeInv, List.all_eq_true] at hdb ⊢
  intro x hx
  rcases List.mem_map.mp hx with ⟨r, hr, rfl⟩
  exact hf r (hdb r hr)

/-- The updater `updateFileRow` preserves the row invariant whenever the new triple
satisfies it. -/
theorem updateFileRow_inv (eid : Int) (fid ftype fname : Option (List Char))
    (hnew : attachInvariant fid ftype fname = true) (r : EventRecord)
    (hr : recordInv r = true) :
    recordInv (updateFileRow eid fid ftype fname r) = true := by
  unfold updateFileRow
  by_cases hid : r.id = eid <;> simp [hid, recordInv] at hr ⊢ <;>
    first
      | exact hnew
      | exact hr

/-- Claim C10.  Starting from a store whose rows satisfy the attachment invariant,
each attachment-writing operation — Add-flow creation with an accepted
attachment (`get_file_attachment`), Add-flow creation without one
(`skip_file`), Edit-flow replacement (`edit_file`) and removal
(`remove_file`) — leaves every row satisfying it: all three fields absent,
or a non-empty handle with kind among document/photo/audio/voice and the
display name absent for photo and voice. -/
theorem C10_attachment_invariant_preserved (db : List EventRecord)
    (uid : Int) (idate idescr : List Char) (m : TgMessage) (eid : Int)
    (hdb : storeInv db = true) :
    storeInv (get_file_attachment db uid idate idescr m).2.2 = true
    ∧ storeInv (skip_file db uid idate idescr).2.2 = true
    ∧ storeInv (edit_file db eid m).2.2 = true
    ∧ storeInv (remove_file db eid).2.2 = true := by
  refine ⟨?_, ?_, ?_, ?_⟩
  · by_cases ht : truthyStr (extract_attachment m).1 = true
    · have hnew := extract_attachment_inv m ht
      simp only [get_file_attachment, ht, if_true, save_event]
      rw [storeInv, List.all_append]
      rw [storeInv] at hdb
      simp [hdb, List.all_cons, recordInv, hnew]
    · simp only [get_file_attachment, ht, if_false]
      exact hdb
  · simp only [skip_file, save_event]
    rw [storeInv, List.all_append]
    rw [storeInv] at hdb
    simp [hdb, List.all_cons, recordInv, attachInvariant]
  · by_cases ht : truthyStr (extract_attachment m).1 = true
    · have hnew := extract_attachment_inv m ht
      simp only [edit_file, ht, if_true]
      exact storeInv_map db _ hdb (updateFileRow_inv eid _ _ _ hnew)
    · simp only [edit_file, ht, if_false]
      exact hdb
  · exact storeInv_map db _ hdb (updateFileRow_inv eid none none none (by decide))

/-- Witness for C10 at a concrete store and message. -/
theorem C10_attachment_invariant_preserved_witness :
    storeInv (get_file_attachment dbNoAttach 7 ("150630 1430".toList)
        ("x".toList) msgDoc).2.2 = true
    ∧ storeInv (skip_file dbNoAttach 7 ("150630 1430".toList) ("x".toList)).2.2 = true
    ∧ storeInv (edit_file dbNoAttach 1 msgDoc).2.2 = true
    ∧ storeInv (remove_file dbNoAttach 1).2.2 = true :=
  C10_attachment_invariant_preserved dbNoAttach 7 ("150630 1430".toList)
    ("x".toList) msgDoc 1 (by decide)

/-! ### Helper lemmas for the codec theorems -/

theorem daysInMonth_le (y m : Int) : daysInMonth y m ≤ 31 := by
  unfold daysInMonth
  split_ifs <;> omega

theorem digitChar_isDigit (k : Nat) (h : k < 10) :
    (Char.ofNat (48 + k)).isDigit = true := by
  interval_cases k <;> decide

theorem digitChar_not_ws (k : Nat) (h : k < 10) :
    (Char.ofNat (48 + k)).isWhitespace = false := by
  interval_cases k <;> decide

theorem digitChar_ne_minus (k : Nat) (h : k < 10) :
    ((Char.ofNat (48 + k)) == '-') = false := by
  interval_cases k <;> decide

theorem digitChar_ne_plus (k : Nat) (h : k < 10) :
    ((Char.ofNat (48 + k)) == '+') = false := by
  interval_cases k <;> decide

theorem digitChar_toNat (k : Nat) (h : k < 10) :
    (Char.ofNat (48 + k)).toNat = 48 + k := by
  interval_cases k <;> decide

theorem pad2_not_ws (n : Nat) : ∀ c ∈ pad2 n, c.isWhitespace = false := by
  intro c hc
  simp only [pad2, List.mem_cons, List.not_mem_nil, or_false] at hc
  rcases hc with rfl | rfl
  · exact digitChar_not_ws _ (Nat.mod_lt _ (by norm_num))
  · exact digitChar_not_ws _ (Nat.mod_lt _ (by norm_num))

theorem dropWhile_eq_self_of {α : Type} (p : α → Bool) (l : List α)
    (h : ∀ c ∈ l, p c = false) : l.dropWhile p = l := by
  cases l with
  | nil => rfl
  | cons c cs =>
    rw [List.dropWhile_cons, h c (List.mem_cons_self c cs)]
    simp

theorem pyStrip_eq_self (l : List Char)
    (h : ∀ c ∈ l, c.isWhitespace = false) : pyStrip l = l := by
  unfold pyStrip
  rw [dropWhile_eq_self_of _ l h]
  rw [dropWhile_eq_self_of _ l.reverse (fun c hc => h c (List.mem_reverse.mp hc))]
  exact List.reverse_reverse l

theorem pyInt_pad2 (n : Nat) (h : n < 100) : pyInt (pad2 n) = some (n : Int) := by
  have h1 : n / 10 % 10 < 10 := Nat.mod_lt _ (by norm_num)
  have h2 : n % 10 < 10 := Nat.mod_lt _ (by norm_num)
  have hstrip : pyStrip (pad2 n) = pad2 n := pyStrip_eq_self _ (pad2_not_ws n)
  unfold pyInt
  rw [hstrip]
  simp only [pad2, digitChar_ne_minus _ h1, digitChar_ne_plus _ h1,
    Bool.false_eq_true, if_false, pyIntCore]
  simp [digitChar_isDigit _ h1, digitChar_isDigit _ h2, digitsToNat,
    digitChar_toNat _ h1, digitChar_toNat _ h2]
  omega

theorem pySplitAux_append :
    ∀ (t : List Char), (∀ c ∈ t, c.isWhitespace = false) →
    ∀ (r acc : List Char),
      pySplitAux (t ++ r) acc = pySplitAux r (t.reverse ++ acc) := by
  intro t
  induction t with
  | nil => intro _ r acc; simp
  | cons c ts ih =>
    intro h r acc
    have hc : c.isWhitespace = false := h c (List.mem_cons_self c ts)
    have hts : ∀ x ∈ ts, x.isWhitespace = false :=
      fun x hx => h x (List.mem_cons_of_mem c hx)
    have step : pySplitAux (c :: (ts ++ r)) acc = pySplitAux (ts ++ r) (c :: acc) := by
      simp only [pySplitAux, hc]
      simp
    calc pySplitAux ((c :: ts) ++ r) acc
        = pySplitAux (ts ++ r) (c :: acc) := step
      _ = pySplitAux r (ts.reverse ++ (c :: acc)) := ih hts r (c :: acc)
      _ = pySplitAux r ((c :: ts).reverse ++ acc) := by
          simp [List.reverse_cons, List.append_assoc]

theorem pySplit_pair (t1 t2 : List Char)
    (h1 : ∀ c ∈ t1, c.isWhitespace = false)
    (h2 : ∀ c ∈ t2, c.isWhitespace = false)
    (n1 : t1 ≠ []) (n2 : t2 ≠ []) :
    pySplit (t1 ++ ' ' :: t2) = [t1, t2] := by
  have hacc1 : t1.reverse.isEmpty = false := by
    cases t1 with
    | nil => exact absurd rfl n1
    | cons c cs => simp
  have hend : pySplitAux t2 [] = [t2] := by
    have := pySplitAux_append t2 h2 [] []
    rw [List.append_nil, List.append_nil] at this
    rw [this]
    cases t2 with
    | nil => exact absurd rfl n2
    | cons c cs => simp [pySplitAux]
  unfold pySplit
  rw [pySplitAux_append t1 h1 (' ' :: t2) [], List.append_nil]
  simp only [pySplitAux]
  rw [hacc1]
  simp [List.reverse_reverse, hend]

theorem parse_format_core (D M Y2 H Mi : Nat)
    (hD : D < 100) (hM : M < 100) (hY : Y2 < 100) (hH : H < 100)
    (hMi : Mi < 100) :
    parse_datetime ((pad2 D ++ pad2 M ++ pad2 Y2) ++ ' ' :: (pad2 H ++ pad2 Mi))
      = mkPyDateTime (2000 + (Y2 : Int)) (M : Int) (D : Int) (H : Int) (Mi : Int) := by
  have hT1 : ∀ c ∈ pad2 D ++ pad2 M ++ pad2 Y2, c.isWhitespace = false := by
    intro c hc
    rcases List.mem_append.mp hc with hc | hc
    · rcases List.mem_append.mp hc with hc2 | hc2
      · exact pad2_not_ws D c hc2
      · exact pad2_not_ws M c hc2
    · exact pad2_not_ws Y2 c hc
  have hT2 : ∀ c ∈ pad2 H ++ pad2 Mi, c.isWhitespace = false := by
    intro c hc
    rcases List.mem_append.mp hc with hc | hc
    · exact pad2_not_ws H c hc
    · exact pad2_not_ws Mi c hc
  have hsplit : pySplit ((pad2 D ++ pad2 M ++ pad2 Y2) ++ ' ' :: (pad2 H ++ pad2 Mi))
      = [pad2 D ++ pad2 M ++ pad2 Y2, pad2 H ++ pad2 Mi] :=
    pySplit_pair _ _ hT1 hT2 (by simp [pad2]) (by simp [pad2])
  unfold parse_datetime
  simp only [hsplit]
  rw [show pySlice 0 2 (pad2 D ++ pad2 M ++ pad2 Y2) = pad2 D from rfl,
    show pySlice 2 4 (pad2 D ++ pad2 M ++ pad2 Y2) = pad2 M from rfl,
    show pySlice 4 6 (pad2 D ++ pad2 M ++ pad2 Y2) = pad2 Y2 from rfl,
    show pySlice 0 2 (pad2 H ++ pad2 Mi) = pad2 H from rfl,
    show pySlice 2 4 (pad2 H ++ pad2 Mi) = pad2 Mi from rfl,
    pyInt_pad2 D hD, pyInt_pad2 M hM, pyInt_pad2 Y2 hY, pyInt_pad2 H hH,
    pyInt_pad2 Mi hMi]
  simp only [Option.some_bind]

/-- Claim C9.  Composition parse-after-format is the identity on every valid decoded date-time
with year in 2000-2099 (and seconds zero, which the embedding's `PyDateTime`
carries implicitly): `parse_datetime (format_datetime dt) = some dt`. -/
theorem C9_parse_format_roundtrip (dt : PyDateTime) (hv : dt.valid = true)
    (hy1 : 2000 ≤ dt.year) (hy2 : dt.year ≤ 2099) :
    parse_datetime (format_datetime dt) = some dt := by
  have hvv := hv
  unfold PyDateTime.valid at hvv
  simp only [Bool.and_eq_true, decide_eq_true_eq] at hvv
  obtain ⟨⟨⟨⟨⟨⟨⟨⟨⟨h1, h2⟩, h3⟩, h4⟩, h5⟩, h6⟩, h7⟩, h8⟩, h9⟩, h10⟩ := hvv
  have hdm : daysInMonth dt.year dt.month ≤ 31 := daysInMonth_le _ _
  have hD : dt.day.toNat < 100 := by omega
  have hM : dt.month.toNat < 100 := by omega
  have hY : dt.year.toNat % 100 < 100 := Nat.mod_lt _ (by norm_num)
  have hH : dt.hour.toNat < 100 := by omega
  have hMi : dt.minute.toNat < 100 := by omega
  have hfmt : format_datetime dt
      = (pad2 dt.day.toNat ++ pad2 dt.month.toNat ++ pad2 (dt.year.toNat % 100))
        ++ ' ' :: (pad2 dt.hour.toNat ++ pad2 dt.minute.toNat) := by
    simp [format_datetime, List.append_assoc]
  rw [hfmt, parse_format_core _ _ _ _ _ hD hM hY hH hMi]
  have hyy : (2000 : Int) + ((dt.year.toNat % 100 : Nat) : Int) = dt.year := by
    omega
  have hmm : ((dt.month.toNat : Nat) : Int) = dt.month := by omega
  have hdd : ((dt.day.toNat : Nat) : Int) = dt.day := by omega
  have hhh : ((dt.hour.toNat : Nat) : Int) = dt.hour := by omega
  have hmi2 : ((dt.minute.toNat : Nat) : Int) = dt.minute := by omega
  rw [hyy, hmm, hdd, hhh, hmi2]
  simp only [mkPyDateTime]
  have heta : (⟨dt.year, dt.month, dt.day, dt.hour, dt.minute⟩ : PyDateTime) = dt := rfl
  rw [heta, hv]
  simp

/-- Witness for C9 at a concrete valid date-time. -/
theorem C9_parse_format_roundtrip_witness :
    parse_datetime (format_datetime ⟨2024, 6, 15, 14, 30⟩)
      = some ⟨2024, 6, 15, 14, 30⟩ :=
  C9_parse_format_roundtrip ⟨2024, 6, 15, 14, 30⟩ (by decide) (by decide)
    (by decide)

/-- Claim C3 amended.  Behavior of `parse` as provable: it returns invalid for every input whose
whitespace-split token count is not 2, and for every input whose date token
is shorter than 5 characters or whose time token is shorter than 3
characters (the slice for the last field is then empty); every successful
parse satisfies the calendar validity check (so day 32, hour 24 or minute 60
can never be returned); the embedding is a total function, matching "never
raises".  (Exact token lengths 6 and 4 are *not* enforced, and characters
beyond date positions 0-5 / time positions 0-3 are ignored even when
non-numeric — see the counterexample.) -/
theorem C3_parse_rejections (s d t : List Char) (dt : PyDateTime) :
    ((pySplit s).length ≠ 2 → parse_datetime s = none)
    ∧ (pySplit s = [d, t] → (d.length < 5 ∨ t.length < 3) → parse_datetime s = none)
    ∧ (parse_datetime s = some dt → dt.valid = true) := by
  refine ⟨?_, ?_, ?_⟩
  · intro hlen
    unfold parse_datetime
    rcases h : pySplit s with _ | ⟨a, _ | ⟨b, _ | ⟨c, l⟩⟩⟩
    · rfl
    · rfl
    · exact absurd (by rw [h]; rfl) hlen
    · rfl
  · intro hsp hlen
    unfold parse_datetime
    simp only [hsp]
    rcases hlen with hl | hl
    · have hnil : pyInt (pySlice 4 6 d) = none := by
        have he : pySlice 4 6 d = [] := by
          unfold pySlice
          rw [List.drop_eq_nil_of_le (by omega : d.length ≤ 4)]
          rfl
        rw [he]
        rfl
      rcases ha : pyInt (pySlice 0 2 d) with _ | v1
      · simp [ha]
      · rcases hb : pyInt (pySlice 2 4 d) with _ | v2 <;> simp [ha, hb, hnil]
    · have hnil : pyInt (pySlice 2 4 t) = none := by
        have he : pySlice 2 4 t = [] := by
          unfold pySlice
          rw [List.drop_eq_nil_of_le (by omega : t.length ≤ 2)]
          rfl
        rw [he]
        rfl
      rcases ha : pyInt (pySlice 0 2 d) with _ | v1
      · simp [ha]
      · rcases hb : pyInt (pySlice 2 4 d) with _ | v2
        · simp [ha, hb]
        · rcases hc : pyInt (pySlice 4 6 d) with _ | v3
          · simp [ha, hb, hc]
          · rcases hd2 : pyInt (pySlice 0 2 t) with _ | v4 <;>
              simp [ha, hb, hc, hd2, hnil]
  · intro hp
    unfold parse_datetime at hp
    rcases h : pySplit s with _ | ⟨a, _ | ⟨b, _ | ⟨c, l⟩⟩⟩ <;> simp only [h] at hp
    · exact absurd hp (by simp)
    · exact absurd hp (by simp)
    · simp only [Option.bind_eq_some] at hp
      obtain ⟨day, _, mo, _, yy, _, hh, _, mi, _, hmk⟩ := hp
      simp only [mkPyDateTime] at hmk
      split at hmk
      · injection hmk with he
        rw [← he]
        assumption
      · exact absurd hmk (by simp)
    · exact absurd hp (by simp)

/-- Witness for C3 amended at concrete inputs: a one-token input, a
four-character date token, and a successful parse that is calendar-valid. -/
theorem C3_parse_rejections_witness :
    parse_datetime ("150624".toList) = none
    ∧ parse_datetime ("3206 1430".toList) = none
    ∧ (PyDateTime.mk 2024 6 15 14 30).valid = true :=
  ⟨(C3_parse_rejections ("150624".toList) [] [] ⟨0, 0, 0, 0, 0⟩).1 (by decide),
   (C3_parse_rejections ("3206 1430".toList) ("3206".toList) ("1430".toList)
      ⟨0, 0, 0, 0, 0⟩).2.1 (by decide) (by decide),
   (C3_parse_rejections ("150624 1430".toList) [] []
      ⟨2024, 6, 15, 14, 30⟩).2.2 (by decide)⟩

end EventBot
